import Mathlib

/-!
Verification development for the "Tee & Seele" backend.

The embedding follows `src/main.py` and `src/schemas.py`:
* interaction events are the plain documents read back from the event store
  (`type` a free-form string, `intensity` and `value` optional numbers);
* `computeProfile` embeds `compute_profile` (a left fold over the events with
  one clamped adjustment per recognised event type);
* `score`, `sortedByScoreDesc` and `matchTeas` embed `match_teas` (cosine-like
  similarity with a `1e-8` offset on each Euclidean norm, Python's stable
  `sorted(..., reverse=True)` modelled by a stable insertion sort on the
  reversed relation, then `[:3]` and slug projection);
* `seedTeasIfEmpty` and `teaDetail` embed `seed_teas_if_empty` and the
  `/tea/{slug}` handler, with the Mongo collection modelled as the list of its
  documents in insertion order.

Numbers are modelled exactly: `ℚ` for the event/profile arithmetic and `ℝ`
for the similarity scores (the square root forces the reals).
-/

namespace TeeSeele

/-- An interaction event document as `compute_profile` reads it back from the
store: `e.get("type")`, `e.get("intensity", 1.0)`, `e.get("value", 0)`.
A missing key and an explicit Python `None` are both modelled as `none`
(in the source both fall through the `or` defaults to the same number). -/
structure Event where
  type : String
  intensity : Option ℚ := some 1
  value : Option ℚ := none
deriving DecidableEq

/-- `schemas.EmotionalProfile`: the four wellness axes. -/
structure EmotionalProfile where
  calmness : ℚ
  clarity : ℚ
  energy : ℚ
  grounding : ℚ
deriving DecidableEq

/-- The `ge=0, le=100` bounds declared on `schemas.EmotionalProfile`. -/
def ProfileInRange (p : EmotionalProfile) : Prop :=
  0 ≤ p.calmness ∧ p.calmness ≤ 100 ∧
  0 ≤ p.clarity ∧ p.clarity ≤ 100 ∧
  0 ≤ p.energy ∧ p.energy ≤ 100 ∧
  0 ≤ p.grounding ∧ p.grounding ≤ 100

/-- `schemas.Tea`: one catalog document. The `axes` dict is an association
list so that arbitrary keys (beyond the four axis names) stay representable. -/
structure Tea where
  slug : String
  name : String
  latin : Option String
  tags : List String
  axes : List (String × ℚ)
  description : Option String
  preparation : Option String
  contraindications : List String
  interactions : List String
deriving DecidableEq

/-- `float(e.get("intensity", 1.0) or 1.0)`: a missing/`None` intensity and an
intensity equal to `0` (falsy in Python) all collapse to `1.0`. -/
def getInten (e : Event) : ℚ :=
  match e.intensity with
  | none => 1
  | some x => if x = 0 then 1 else x

/-- `float(e.get("value", 0) or 0)`: a missing/`None` value reads as `0`
(`x or 0` is `x` for nonzero `x` and `0` otherwise, hence `getD 0`). -/
def getVal (e : Event) : ℚ :=
  e.value.getD 0

/-- One iteration of the event loop in `compute_profile` (`src/main.py`,
lines 214-233): the `if/elif` dispatch on `e.get("type")`. -/
def step (p : EmotionalProfile) (e : Event) : EmotionalProfile :=
  let inten := getInten e
  let val := getVal e
  if e.type = "cloud_touch" then
    { p with calmness := max 0 (p.calmness - 3 * inten),
             grounding := min 100 (p.grounding + 2 * inten) }
  else if e.type = "light_collect" then
    { p with energy := min 100 (p.energy + 4 * inten),
             clarity := min 100 (p.clarity + 2 * inten) }
  else if e.type = "maze_time" then
    { p with clarity := max 0 (p.clarity - min 20 (val / 2)),
             grounding := max 0 (p.grounding - min 15 (val / 3)) }
  else if e.type = "breath_pace" then
    { p with calmness := min 100 (p.calmness + max 0 (5 - min val 5) * 2) }
  else if e.type = "scroll_depth" then
    { p with energy := min 100 (p.energy + min 20 (val / 5)) }
  else if e.type = "companion_tap" then
    { p with grounding := min 100 (p.grounding + 5 * inten) }
  else p

/-- `compute_profile` (`src/main.py`, lines 207-235): fold the events over the
50/50/50/50 baseline.  (The Python function finally re-validates the result
against the `EmotionalProfile` bounds; the fold itself is embedded here.) -/
def computeProfile (events : List Event) : EmotionalProfile :=
  events.foldl step ⟨50, 50, 50, 50⟩

/-- The default tea catalog `DEFAULT_TEAS` (`src/main.py`, lines 103-148). -/
def kamille : Tea :=
  { slug := "kamille", name := "Kamille", latin := some "Matricaria chamomilla",
    tags := ["beruhigend", "magen", "sanft"],
    axes := [("calmness", 0.9), ("clarity", 0.4), ("energy", 0.1), ("grounding", 0.6)],
    description := some "Sanfte Blüten, die beruhigen und entspannen.",
    preparation := some "1-2 TL Blüten mit 200ml heißem Wasser, 5-7 Minuten ziehen lassen.",
    contraindications := ["Asteraceae-Allergie"],
    interactions := [] }

/-- Second default tea. -/
def melisse : Tea :=
  { slug := "melisse", name := "Zitronenmelisse", latin := some "Melissa officinalis",
    tags := ["beruhigend", "klarheit", "stimmung"],
    axes := [("calmness", 0.8), ("clarity", 0.6), ("energy", 0.2), ("grounding", 0.5)],
    description := some "Hellt die Stimmung auf und bringt Ruhe in den Geist.",
    preparation := some "1-2 TL Blätter mit 200ml heißem Wasser, 6-8 Minuten ziehen lassen.",
    contraindications := [],
    interactions := [] }

/-- Third default tea. -/
def ingwer : Tea :=
  { slug := "ingwer", name := "Ingwer", latin := some "Zingiber officinale",
    tags := ["energie", "wärme", "fokus"],
    axes := [("calmness", 0.2), ("clarity", 0.5), ("energy", 0.9), ("grounding", 0.7)],
    description := some "Wärmend, anregend, fördert Fokus und Antrieb.",
    preparation := some "Frische Scheiben 8-10 Minuten köcheln lassen.",
    contraindications := ["Magenreizungen", "Blutverdünner"],
    interactions := ["Antikoagulanzien"] }

/-- Fourth default tea. -/
def baldrian : Tea :=
  { slug := "baldrian", name := "Baldrian", latin := some "Valeriana officinalis",
    tags := ["schlaf", "beruhigend", "boden"],
    axes := [("calmness", 0.95), ("clarity", 0.3), ("energy", 0.05), ("grounding", 0.9)],
    description := some "Tiefe Erdung und Schlafunterstützung.",
    preparation := some "Wurzel 10-12 Minuten ziehen lassen.",
    contraindications := ["Müdigkeit am Tag"],
    interactions := ["Sedativa"] }

/-- `DEFAULT_TEAS`, in source order. -/
def DEFAULT_TEAS : List Tea := [kamille, melisse, ingwer, baldrian]

/-- Python `axes.get(a, 0)` on the axes dict, as first-match lookup in the
association list. -/
def axesGet (axes : List (String × ℚ)) (a : String) : ℚ :=
  match axes.find? (fun kv => kv.1 == a) with
  | some kv => kv.2
  | none => 0

/-- The `1e-8` offset added to each Euclidean norm in `match_teas.score`. -/
noncomputable def epsilon : ℝ := 1e-8

/-- `sum(target[a] * axes.get(a, 0) for a in target)` in `match_teas.score`:
the normalized profile (`axis / 100`) dotted with the tea's axes over the four
axis keys of `target`. -/
noncomputable def teaDot (p : EmotionalProfile) (t : Tea) : ℝ :=
  ((p.calmness : ℝ) / 100) * (axesGet t.axes "calmness" : ℝ) +
  ((p.clarity : ℝ) / 100) * (axesGet t.axes "clarity" : ℝ) +
  ((p.energy : ℝ) / 100) * (axesGet t.axes "energy" : ℝ) +
  ((p.grounding : ℝ) / 100) * (axesGet t.axes "grounding" : ℝ)

/-- `sum((axes.get(a, 0)) ** 2 for a in target)`: squared norm of the tea's
axes over the four axis keys. -/
noncomputable def teaNormSq (t : Tea) : ℝ :=
  (axesGet t.axes "calmness" : ℝ) ^ 2 + (axesGet t.axes "clarity" : ℝ) ^ 2 +
  (axesGet t.axes "energy" : ℝ) ^ 2 + (axesGet t.axes "grounding" : ℝ) ^ 2

/-- `sum((target[a]) ** 2 for a in target)`: squared norm of the normalized
profile vector. -/
noncomputable def profileNormSq (p : EmotionalProfile) : ℝ :=
  ((p.calmness : ℝ) / 100) ^ 2 + ((p.clarity : ℝ) / 100) ^ 2 +
  ((p.energy : ℝ) / 100) ^ 2 + ((p.grounding : ℝ) / 100) ^ 2

/-- `match_teas.score` (`src/main.py`, lines 249-254): dot product over the
product of the two offset norms. -/
noncomputable def score (p : EmotionalProfile) (t : Tea) : ℝ :=
  teaDot p t /
    ((Real.sqrt (teaNormSq t) + epsilon) * (Real.sqrt (profileNormSq p) + epsilon))

open Classical in
/-- `sorted(teas, key=score, reverse=True)`: Python's sort is stable, and with
`reverse=True` it produces the unique permutation that is descending in the key
with equal-key elements kept in catalog order.  `List.insertionSort` with the
relation "score at least as large" computes exactly that permutation. -/
noncomputable def sortedByScoreDesc (p : EmotionalProfile) (teas : List Tea) : List Tea :=
  teas.insertionSort (fun a b => score p b ≤ score p a)

/-- `match_teas` (`src/main.py`, lines 238-257): take the top 3 of the ordered
catalog and project to slugs. -/
noncomputable def matchTeas (p : EmotionalProfile) (teas : List Tea) : List String :=
  ((sortedByScoreDesc p teas).take 3).map (fun t => t.slug)

open Classical in
/-- The teas of a list whose similarity score equals a given value `c` —
the "tie class" of `c`, used to state stability of the matcher's sort. -/
noncomputable def scoreFilter (p : EmotionalProfile) (c : ℝ) (l : List Tea) : List Tea :=
  l.filter (fun t => decide (score p t = c))

/-- A tea whose axes dict is empty: every axis reads as `0`. -/
def zeroTea : Tea :=
  { slug := "leer", name := "Leer", latin := none, tags := [], axes := [],
    description := none, preparation := none, contraindications := [],
    interactions := [] }

/-- The all-zero profile: a legal `EmotionalProfile` (all bounds hold). -/
def zeroProfile : EmotionalProfile := ⟨0, 0, 0, 0⟩

/-- `seed_teas_if_empty` (`src/main.py`, lines 151-156).  Modelled from the
spec: the database layer (`database.py`) is not part of `src/`, so the Mongo
`tea` collection is modelled as the list of its documents in insertion order;
`count_documents(\x7b\x7d)` is its length and `insert_many(DEFAULT_TEAS)` appends
the four default documents. -/
def seedTeasIfEmpty (store : List Tea) : List Tea :=
  if store.length = 0 then store ++ DEFAULT_TEAS else store

/-- The `/tea/{slug}` handler `tea_detail` (`src/main.py`, lines 276-283).
Modelled from the spec: `find_one({"slug": slug})` on the collection-as-list
returns the first document whose slug matches; a missing document becomes the
404 "Tea not found" error. -/
def teaDetail (catalog : List Tea) (sl : String) : Except String Tea :=
  match catalog.find? (fun t => t.slug == sl) with
  | some t => Except.ok t
  | none => Except.error "Tea not found"

/-- An event whose numeric payload is nonnegative: whatever number stands in
the `intensity` and `value` fields is `≥ 0`. -/
def EventOK (e : Event) : Prop :=
  (∀ x, e.intensity = some x → 0 ≤ x) ∧ (∀ x, e.value = some x → 0 ≤ x)

/-- Event types whose branch of `compute_profile` writes the calmness
accumulator. -/
def touchesCalm (t : String) : Bool :=
  t == "cloud_touch" || t == "breath_pace"

/-- Event types whose branch writes the clarity accumulator. -/
def touchesClarity (t : String) : Bool :=
  t == "light_collect" || t == "maze_time"

/-- Event types whose branch writes the energy accumulator. -/
def touchesEnergy (t : String) : Bool :=
  t == "light_collect" || t == "scroll_depth"

/-- Event types whose branch writes the grounding accumulator. -/
def touchesGrounding (t : String) : Bool :=
  t == "cloud_touch" || t == "maze_time" || t == "companion_tap"

/-- Two event types touch disjoint sets of accumulators. -/
def disjointAxes (t₁ t₂ : String) : Prop :=
  ¬(touchesCalm t₁ = true ∧ touchesCalm t₂ = true) ∧
  ¬(touchesClarity t₁ = true ∧ touchesClarity t₂ = true) ∧
  ¬(touchesEnergy t₁ = true ∧ touchesEnergy t₂ = true) ∧
  ¬(touchesGrounding t₁ = true ∧ touchesGrounding t₂ = true)

/-- The calmness assignment of `step`, isolated: in the source each branch
reads only the accumulator it writes, so `step` acts on each axis
independently. -/
def calmUpd (e : Event) (c : ℚ) : ℚ :=
  if e.type = "cloud_touch" then max 0 (c - 3 * getInten e)
  else if e.type = "breath_pace" then min 100 (c + max 0 (5 - min (getVal e) 5) * 2)
  else c

/-- The clarity assignment of `step`, isolated. -/
def clarityUpd (e : Event) (c : ℚ) : ℚ :=
  if e.type = "light_collect" then min 100 (c + 2 * getInten e)
  else if e.type = "maze_time" then max 0 (c - min 20 (getVal e / 2))
  else c

/-- The energy assignment of `step`, isolated. -/
def energyUpd (e : Event) (x : ℚ) : ℚ :=
  if e.type = "light_collect" then min 100 (x + 4 * getInten e)
  else if e.type = "scroll_depth" then min 100 (x + min 20 (getVal e / 5))
  else x

/-- The grounding assignment of `step`, isolated. -/
def groundingUpd (e : Event) (g : ℚ) : ℚ :=
  if e.type = "cloud_touch" then min 100 (g + 2 * getInten e)
  else if e.type = "maze_time" then max 0 (g - min 15 (getVal e / 3))
  else if e.type = "companion_tap" then min 100 (g + 5 * getInten e)
  else g

/-- A maximal-intensity `cloud_touch` event (intensity 10 is the largest the
schema admits). -/
def ct10 : Event := { type := "cloud_touch", intensity := some 10, value := none }

/-- A `breath_pace` event with pace value 0. -/
def bp0 : Event := { type := "breath_pace", intensity := none, value := some 0 }

/-- The profile of end-to-end scenario 3 of the spec. -/
def profile3 : EmotionalProfile := ⟨90, 40, 10, 60⟩

/-- `kamille` with an extra (non-axis) entry in its axes dict. -/
def kamilleExtra : Tea := { kamille with axes := kamille.axes ++ [("stimmung", 0.5)] }

lemma getInten_nonneg (e : Event) (h : ∀ x, e.intensity = some x → 0 ≤ x) :
    0 ≤ getInten e := by
  unfold getInten
  cases hi : e.intensity with
  | none => norm_num
  | some x =>
    by_cases hx : x = 0
    · simp [hx]
    · simpa [hx] using h x hi

lemma getVal_nonneg (e : Event) (h : ∀ x, e.value = some x → 0 ≤ x) :
    0 ≤ getVal e := by
  unfold getVal
  cases hv : e.value with
  | none => norm_num
  | some x => simpa using h x hv

lemma step_preserves_range (s : EmotionalProfile) (e : Event)
    (hs : ProfileInRange s) (he : EventOK e) : ProfileInRange (step s e) := by
  obtain ⟨c0, c1, l0, l1, e0, e1, g0, g1⟩ := hs
  have hi : 0 ≤ getInten e := getInten_nonneg e he.1
  have hv : 0 ≤ getVal e := getVal_nonneg e he.2
  unfold step ProfileInRange
  split_ifs
  · exact ⟨le_max_left _ _, max_le (by norm_num) (by linarith),
      l0, l1, e0, e1,
      le_min (by norm_num) (by linarith), min_le_left _ _⟩
  · exact ⟨c0, c1,
      le_min (by norm_num) (by linarith), min_le_left _ _,
      le_min (by norm_num) (by linarith), min_le_left _ _,
      g0, g1⟩
  · have h2 : (0:ℚ) ≤ min 20 (getVal e / 2) := le_min (by norm_num) (by positivity)
    have h3 : (0:ℚ) ≤ min 15 (getVal e / 3) := le_min (by norm_num) (by positivity)
    exact ⟨c0, c1,
      le_max_left _ _, max_le (by norm_num) (by linarith),
      e0, e1,
      le_max_left _ _, max_le (by norm_num) (by linarith)⟩
  · have h2 : (0:ℚ) ≤ max 0 (5 - min (getVal e) 5) * 2 :=
      mul_nonneg (le_max_left _ _) (by norm_num)
    exact ⟨le_min (by norm_num) (by linarith), min_le_left _ _,
      l0, l1, e0, e1, g0, g1⟩
  · have h2 : (0:ℚ) ≤ min 20 (getVal e / 5) := le_min (by norm_num) (by positivity)
    exact ⟨c0, c1, l0, l1,
      le_min (by norm_num) (by linarith), min_le_left _ _,
      g0, g1⟩
  · exact ⟨c0, c1, l0, l1, e0, e1,
      le_min (by norm_num) (by linarith), min_le_left _ _⟩
  · exact ⟨c0, c1, l0, l1, e0, e1, g0, g1⟩

lemma foldl_preserves_range :
    ∀ (events : List Event) (s : EmotionalProfile), ProfileInRange s →
      (∀ e ∈ events, EventOK e) → ProfileInRange (events.foldl step s)
  | [], _, hs, _ => hs
  | e :: es, s, hs, h =>
    foldl_preserves_range es (step s e)
      (step_preserves_range s e hs (h e (by simp)))
      (fun e' he' => h e' (by simp [he']))

/-- C1 (amended): whenever every event carries a nonnegative intensity and a
nonnegative value, all four axes of the profile computed by `compute_profile`
stay within `[0,100]` — the clamp applied at each per-event adjustment keeps
each accumulator in range. -/
theorem c1_profile_axes_in_range (events : List Event)
    (h : ∀ e ∈ events, EventOK e) : ProfileInRange (computeProfile events) :=
  foldl_preserves_range events ⟨50, 50, 50, 50⟩ (by norm_num [ProfileInRange]) h

/-- C1 (witness): a concrete run — one `cloud_touch` of intensity 2 — keeps
the profile within range. -/
theorem c1_witness :
    (∀ e ∈ [({ type := "cloud_touch", intensity := some 2, value := none } : Event)],
      EventOK e) ∧
    ProfileInRange (computeProfile
      [{ type := "cloud_touch", intensity := some 2, value := none }]) := by
  have h : ∀ e ∈ [({ type := "cloud_touch", intensity := some 2, value := none } : Event)],
      EventOK e := by
    intro e he
    simp only [List.mem_singleton] at he
    subst he
    refine ⟨fun x hx => ?_, fun x hx => by simp_all⟩
    have : (2:ℚ) = x := by simpa using hx
    rw [← this]
    norm_num
  exact ⟨h, c1_profile_axes_in_range _ h⟩

/-- C1 (counterexample): for unrestricted value fields the invariant fails —
a single `maze_time` event with value `-200` drives clarity to `150`, outside
`[0,100]` (the per-step clamps only bound the direction the heuristic expects;
in the running service this violates the declared `EmotionalProfile` bounds). -/
theorem c1_counterexample :
    computeProfile [{ type := "maze_time", intensity := none, value := some (-200) }]
      = ⟨50, 150, 50, 350 / 3⟩ ∧
    ¬ ProfileInRange (⟨50, 150, 50, 350 / 3⟩ : EmotionalProfile) := by
  constructor
  · simp only [computeProfile, List.foldl, step]
    norm_num [getVal, min_def, max_def]
    simp
  · norm_num [ProfileInRange]

/-- C7: starting from an empty catalog the seed operation inserts exactly the
four default teas; on a non-empty catalog it is a no-op, hence it is
idempotent. -/
theorem c7_seed_idempotent :
    seedTeasIfEmpty [] = DEFAULT_TEAS ∧ DEFAULT_TEAS.length = 4 ∧
    (∀ s : List Tea, s ≠ [] → seedTeasIfEmpty s = s) ∧
    (∀ s : List Tea, seedTeasIfEmpty (seedTeasIfEmpty s) = seedTeasIfEmpty s) := by
  refine ⟨rfl, rfl, ?_, ?_⟩
  · intro s hs
    simp [seedTeasIfEmpty, List.length_eq_zero, hs]
  · intro s
    rcases s with _ | ⟨a, s⟩
    · simp [seedTeasIfEmpty, DEFAULT_TEAS]
    · simp [seedTeasIfEmpty]

/-- C7 (witness): seeding a one-tea catalog changes nothing. -/
theorem c7_witness :
    [kamille] ≠ ([] : List Tea) ∧ seedTeasIfEmpty [kamille] = [kamille] :=
  ⟨by simp, c7_seed_idempotent.2.2.1 [kamille] (by simp)⟩

/-- C8: the tea-detail lookup answers "Tea not found" exactly when no catalog
entry carries the requested slug; when some entry does, the lookup succeeds
and returns a catalog record with that slug. -/
theorem c8_tea_detail (catalog : List Tea) (sl : String) :
    (teaDetail catalog sl = Except.error "Tea not found" ↔
      ∀ t ∈ catalog, t.slug ≠ sl) ∧
    (∀ t : Tea, teaDetail catalog sl = Except.ok t → t ∈ catalog ∧ t.slug = sl) ∧
    ((∃ t ∈ catalog, t.slug = sl) → ∃ t : Tea, teaDetail catalog sl = Except.ok t) := by
  unfold teaDetail
  cases hf : catalog.find? (fun t => t.slug == sl) with
  | none =>
    have hnone := List.find?_eq_none.mp hf
    refine ⟨⟨fun _ t ht => ?_, fun _ => rfl⟩, fun t ht => by simp_all, fun ⟨t, ht, hsl⟩ => ?_⟩
    · simpa using hnone t ht
    · exact absurd hsl (by simpa using hnone t ht)
  | some t =>
    have hmem : t ∈ catalog := List.mem_of_find?_eq_some hf
    have hslug : t.slug = sl := by simpa using List.find?_some hf
    refine ⟨⟨fun h => by simp_all, fun h => absurd hslug (h t hmem)⟩, ?_, fun _ => ⟨t, rfl⟩⟩
    intro t' ht'
    have : t = t' := by simpa using ht'
    subst this
    exact ⟨hmem, hslug⟩

/-- C8 (witness): looking up `kamille` in the singleton catalog `[kamille]`
succeeds. -/
theorem c8_witness :
    (∃ t ∈ [kamille], t.slug = "kamille") ∧
    (∃ t : Tea, teaDetail [kamille] "kamille" = Except.ok t) := by
  have h : ∃ t ∈ [kamille], t.slug = "kamille" := ⟨kamille, by simp, rfl⟩
  exact ⟨h, (c8_tea_detail [kamille] "kamille").2.2 h⟩

lemma step_congr (s : EmotionalProfile) (e₁ e₂ : Event) (ht : e₁.type = e₂.type)
    (hi : getInten e₁ = getInten e₂) (hv : getVal e₁ = getVal e₂) :
    step s e₁ = step s e₂ := by
  simp only [step, ht, hi, hv]

/-- C9: an event carrying intensity `0` (or `None`) is treated exactly like an
event of intensity `1.0` (`intensity or 1.0` turns the falsy values into
`1.0`), and the effective intensity is never `0`. -/
theorem c9_zero_intensity (s : EmotionalProfile) (e : Event)
    (h : e.intensity = some 0 ∨ e.intensity = none) :
    step s e = step s { e with intensity := some 1 } ∧ getInten e ≠ 0 := by
  have hi : getInten e = 1 := by
    rcases h with h | h <;> simp [getInten, h]
  have hi' : getInten { e with intensity := some 1 } = 1 := by simp [getInten]
  refine ⟨step_congr s e _ rfl (hi.trans hi'.symm) rfl, ?_⟩
  rw [hi]
  norm_num

/-- C9 (witness): a `cloud_touch` of intensity `0` acts like intensity `1`:
it still lowers calmness by 3 and raises grounding by 2. -/
theorem c9_witness :
    ((some (0:ℚ) = some 0) ∨ (some (0:ℚ) = none)) ∧
    step ⟨50, 50, 50, 50⟩ { type := "cloud_touch", intensity := some 0, value := none } =
      step ⟨50, 50, 50, 50⟩ { type := "cloud_touch", intensity := some 1, value := none } ∧
    step ⟨50, 50, 50, 50⟩ { type := "cloud_touch", intensity := some 0, value := none } =
      ⟨47, 50, 50, 52⟩ := by
  refine ⟨Or.inl rfl, ?_, ?_⟩
  · exact (c9_zero_intensity ⟨50, 50, 50, 50⟩
      { type := "cloud_touch", intensity := some 0, value := none } (Or.inl rfl)).1
  · norm_num [step, getInten, getVal]

lemma step_eq_fieldwise (s : EmotionalProfile) (e : Event) :
    step s e = ⟨calmUpd e s.calmness, clarityUpd e s.clarity,
      energyUpd e s.energy, groundingUpd e s.grounding⟩ := by
  unfold step calmUpd clarityUpd energyUpd groundingUpd
  split_ifs <;> first | rfl | (exfalso; simp_all)

lemma calmUpd_id (e : Event) (h : touchesCalm e.type = false) (c : ℚ) :
    calmUpd e c = c := by
  simp only [touchesCalm, Bool.or_eq_false_iff, beq_eq_false_iff_ne, ne_eq] at h
  simp [calmUpd, h.1, h.2]

lemma clarityUpd_id (e : Event) (h : touchesClarity e.type = false) (c : ℚ) :
    clarityUpd e c = c := by
  simp only [touchesClarity, Bool.or_eq_false_iff, beq_eq_false_iff_ne, ne_eq] at h
  simp [clarityUpd, h.1, h.2]

lemma energyUpd_id (e : Event) (h : touchesEnergy e.type = false) (x : ℚ) :
    energyUpd e x = x := by
  simp only [touchesEnergy, Bool.or_eq_false_iff, beq_eq_false_iff_ne, ne_eq] at h
  simp [energyUpd, h.1, h.2]

lemma groundingUpd_id (e : Event) (h : touchesGrounding e.type = false) (g : ℚ) :
    groundingUpd e g = g := by
  simp only [touchesGrounding, Bool.or_eq_false_iff, beq_eq_false_iff_ne, ne_eq] at h
  simp [groundingUpd, h.1.1, h.1.2, h.2]

lemma upd_comm {f : Event → ℚ → ℚ} {tc : String → Bool}
    (hid : ∀ e x, tc e.type = false → f e x = x)
    (e₁ e₂ : Event) (h : ¬(tc e₁.type = true ∧ tc e₂.type = true)) (x : ℚ) :
    f e₂ (f e₁ x) = f e₁ (f e₂ x) := by
  rcases Bool.eq_false_or_eq_true (tc e₁.type) with h1 | h1
  · have h2 : tc e₂.type = false := by
      rcases Bool.eq_false_or_eq_true (tc e₂.type) with h2 | h2
      · exact absurd ⟨h1, h2⟩ h
      · exact h2
    rw [hid e₂ (f e₁ x) h2, hid e₂ x h2]
  · rw [hid e₁ x h1, hid e₁ (f e₂ x) h1]

lemma step_comm (s : EmotionalProfile) (e₁ e₂ : Event)
    (h : disjointAxes e₁.type e₂.type) :
    step (step s e₁) e₂ = step (step s e₂) e₁ := by
  obtain ⟨hc, hl, he, hg⟩ := h
  simp only [step_eq_fieldwise]
  congr 1
  · exact upd_comm (fun e x hx => calmUpd_id e hx x) e₁ e₂ hc s.calmness
  · exact upd_comm (fun e x hx => clarityUpd_id e hx x) e₁ e₂ hl s.clarity
  · exact upd_comm (fun e x hx => energyUpd_id e hx x) e₁ e₂ he s.energy
  · exact upd_comm (fun e x hx => groundingUpd_id e hx x) e₁ e₂ hg s.grounding

/-- C2 (amended): exchanging two adjacent events of distinct types is
profile-preserving when the two types adjust disjoint accumulators; each
branch of the fold touches only its own axes, so such events commute.
(Distinct types sharing an accumulator need not commute — see the
counterexample.) -/
theorem c2_disjoint_swap (pre post : List Event) (e₁ e₂ : Event)
    (hne : e₁.type ≠ e₂.type) (hdisj : disjointAxes e₁.type e₂.type) :
    computeProfile (pre ++ e₁ :: e₂ :: post) =
      computeProfile (pre ++ e₂ :: e₁ :: post) := by
  unfold computeProfile
  rw [List.foldl_append, List.foldl_append]
  simp only [List.foldl]
  rw [step_comm _ e₁ e₂ hdisj]

/-- C2 (witness): a `breath_pace` (calmness only) and a `scroll_depth`
(energy only) event can be exchanged without changing the profile. -/
theorem c2_witness :
    ({ type := "breath_pace", intensity := none, value := some 0 } : Event).type ≠
      ({ type := "scroll_depth", intensity := none, value := some 100 } : Event).type ∧
    computeProfile
        [{ type := "breath_pace", intensity := none, value := some 0 },
         { type := "scroll_depth", intensity := none, value := some 100 }] =
      computeProfile
        [{ type := "scroll_depth", intensity := none, value := some 100 },
         { type := "breath_pace", intensity := none, value := some 0 }] := by
  refine ⟨by decide, ?_⟩
  exact c2_disjoint_swap [] []
    { type := "breath_pace", intensity := none, value := some 0 }
    { type := "scroll_depth", intensity := none, value := some 100 }
    (by decide) (by unfold disjointAxes; decide)

/-- C2 (counterexample): the claim fails for distinct types sharing an
accumulator.  Two maximal `cloud_touch` events and one `breath_pace` event
yield calmness 10 in one order and calmness 0 in the other, although the
second sequence is a permutation of the first that keeps every type's own
subsequence intact. -/
theorem c2_counterexample :
    List.Perm [ct10, ct10, bp0] [bp0, ct10, ct10] ∧
    (∀ s : String, [ct10, ct10, bp0].filter (fun e => e.type == s) =
      [bp0, ct10, ct10].filter (fun e => e.type == s)) ∧
    computeProfile [ct10, ct10, bp0] = ⟨10, 50, 50, 90⟩ ∧
    computeProfile [bp0, ct10, ct10] = ⟨0, 50, 50, 90⟩ ∧
    computeProfile [ct10, ct10, bp0] ≠ computeProfile [bp0, ct10, ct10] := by
  have h1 : computeProfile [ct10, ct10, bp0] = ⟨10, 50, 50, 90⟩ := by
    simp +decide [computeProfile, List.foldl, step, ct10, bp0, getInten, getVal,
      min_def, max_def]
    norm_num
  have h2 : computeProfile [bp0, ct10, ct10] = ⟨0, 50, 50, 90⟩ := by
    simp +decide [computeProfile, List.foldl, step, ct10, bp0, getInten, getVal,
      min_def, max_def]
    norm_num
  refine ⟨?_, ?_, h1, h2, ?_⟩
  · exact (List.Perm.cons ct10 (List.Perm.swap bp0 ct10 [])).trans
      (List.Perm.swap bp0 ct10 [ct10])
  · intro s
    by_cases hs1 : ("cloud_touch" : String) = s
    · subst hs1; simp [ct10, bp0, List.filter]
    · by_cases hs2 : ("breath_pace" : String) = s
      · subst hs2; simp [ct10, bp0, List.filter]
      · have b1 : (("cloud_touch" : String) == s) = false := beq_eq_false_iff_ne.mpr hs1
        have b2 : (("breath_pace" : String) == s) = false := beq_eq_false_iff_ne.mpr hs2
        simp [ct10, bp0, List.filter, b1, b2]
  · rw [h1, h2]
    intro hEq
    have := congrArg EmotionalProfile.calmness hEq
    norm_num at this

/-- C10: the similarity score reads only the four axis keys of a tea's axes
dict; teas agreeing on those four keys get equal scores, whatever other
entries their dicts carry. -/
theorem c10_score_depends_only_on_axes (p : EmotionalProfile) (t₁ t₂ : Tea)
    (h : ∀ a ∈ (["calmness", "clarity", "energy", "grounding"] : List String),
      axesGet t₁.axes a = axesGet t₂.axes a) :
    score p t₁ = score p t₂ := by
  have h1 := h "calmness" (by simp)
  have h2 := h "clarity" (by simp)
  have h3 := h "energy" (by simp)
  have h4 := h "grounding" (by simp)
  unfold score teaDot teaNormSq
  rw [h1, h2, h3, h4]

/-- C10 (witness): adding a non-axis entry `("stimmung", 0.5)` to `kamille`'s
axes dict changes the dict but not the score. -/
theorem c10_witness :
    (∀ a ∈ (["calmness", "clarity", "energy", "grounding"] : List String),
      axesGet kamille.axes a = axesGet kamilleExtra.axes a) ∧
    kamille.axes ≠ kamilleExtra.axes ∧
    score profile3 kamille = score profile3 kamilleExtra := by
  have h : ∀ a ∈ (["calmness", "clarity", "energy", "grounding"] : List String),
      axesGet kamille.axes a = axesGet kamilleExtra.axes a := by
    intro a ha
    fin_cases ha <;> rfl
  refine ⟨h, ?_, c10_score_depends_only_on_axes profile3 kamille kamilleExtra h⟩
  intro hEq
  have := congrArg List.length hEq
  simp [kamille, kamilleExtra] at this

lemma axesGet_k_ca : axesGet kamille.axes "calmness" = 0.9 := rfl

lemma axesGet_k_cl : axesGet kamille.axes "clarity" = 0.4 := rfl

lemma axesGet_k_en : axesGet kamille.axes "energy" = 0.1 := rfl

lemma axesGet_k_gr : axesGet kamille.axes "grounding" = 0.6 := rfl

lemma axesGet_m_ca : axesGet melisse.axes "calmness" = 0.8 := rfl

lemma axesGet_m_cl : axesGet melisse.axes "clarity" = 0.6 := rfl

lemma axesGet_m_en : axesGet melisse.axes "energy" = 0.2 := rfl

lemma axesGet_m_gr : axesGet melisse.axes "grounding" = 0.5 := rfl

lemma axesGet_i_ca : axesGet ingwer.axes "calmness" = 0.2 := rfl

lemma axesGet_i_cl : axesGet ingwer.axes "clarity" = 0.5 := rfl

lemma axesGet_i_en : axesGet ingwer.axes "energy" = 0.9 := rfl

lemma axesGet_i_gr : axesGet ingwer.axes "grounding" = 0.7 := rfl

lemma axesGet_b_ca : axesGet baldrian.axes "calmness" = 0.95 := rfl

lemma axesGet_b_cl : axesGet baldrian.axes "clarity" = 0.3 := rfl

lemma axesGet_b_en : axesGet baldrian.axes "energy" = 0.05 := rfl

lemma axesGet_b_gr : axesGet baldrian.axes "grounding" = 0.9 := rfl

lemma profileNormSq_profile3 : profileNormSq profile3 = 1.34 := by
  norm_num [profileNormSq, profile3]

lemma teaNormSq_kamille : teaNormSq kamille = 1.34 := by
  norm_num [teaNormSq, axesGet_k_ca, axesGet_k_cl, axesGet_k_en, axesGet_k_gr]

lemma teaNormSq_melisse : teaNormSq melisse = 1.29 := by
  norm_num [teaNormSq, axesGet_m_ca, axesGet_m_cl, axesGet_m_en, axesGet_m_gr]

lemma teaNormSq_ingwer : teaNormSq ingwer = 1.59 := by
  norm_num [teaNormSq, axesGet_i_ca, axesGet_i_cl, axesGet_i_en, axesGet_i_gr]

lemma teaNormSq_baldrian : teaNormSq baldrian = 1.805 := by
  norm_num [teaNormSq, axesGet_b_ca, axesGet_b_cl, axesGet_b_en, axesGet_b_gr]

lemma teaDot_kamille : teaDot profile3 kamille = 1.34 := by
  norm_num [teaDot, profile3, axesGet_k_ca, axesGet_k_cl, axesGet_k_en, axesGet_k_gr]

lemma teaDot_melisse : teaDot profile3 melisse = 1.28 := by
  norm_num [teaDot, profile3, axesGet_m_ca, axesGet_m_cl, axesGet_m_en, axesGet_m_gr]

lemma teaDot_ingwer : teaDot profile3 ingwer = 0.89 := by
  norm_num [teaDot, profile3, axesGet_i_ca, axesGet_i_cl, axesGet_i_en, axesGet_i_gr]

lemma teaDot_baldrian : teaDot profile3 baldrian = 1.52 := by
  norm_num [teaDot, profile3, axesGet_b_ca, axesGet_b_cl, axesGet_b_en, axesGet_b_gr]

lemma eps_eq : epsilon = 1 / 100000000 := by
  norm_num [epsilon]

lemma sqrt134_lt : Real.sqrt 1.34 < 1.1576 := by
  rw [Real.sqrt_lt' (by norm_num)]
  norm_num

lemma sqrt1805_gt : (1.3435 : ℝ) < Real.sqrt 1.805 :=
  Real.lt_sqrt_of_sq_lt (by norm_num)

lemma sqrt1805_lt : Real.sqrt 1.805 < 1.3436 := by
  rw [Real.sqrt_lt' (by norm_num)]
  norm_num

lemma sqrt129_gt : (1.1357 : ℝ) < Real.sqrt 1.29 :=
  Real.lt_sqrt_of_sq_lt (by norm_num)

lemma sqrt129_lt : Real.sqrt 1.29 < 1.14 := by
  rw [Real.sqrt_lt' (by norm_num)]
  norm_num

lemma sqrt159_gt : (1.26 : ℝ) < Real.sqrt 1.59 :=
  Real.lt_sqrt_of_sq_lt (by norm_num)

lemma score_baldrian_lt_kamille : score profile3 baldrian < score profile3 kamille := by
  unfold score
  rw [teaDot_baldrian, teaDot_kamille, teaNormSq_baldrian, teaNormSq_kamille,
    profileNormSq_profile3, eps_eq]
  have h34 : (0:ℝ) < Real.sqrt 1.34 + 1 / 100000000 := by positivity
  rw [div_lt_div_iff₀ (by positivity) (by positivity)]
  have hf : (1.52:ℝ) * (Real.sqrt 1.34 + 1 / 100000000) <
      1.34 * (Real.sqrt 1.805 + 1 / 100000000) := by
    nlinarith [sqrt134_lt, sqrt1805_gt]
  nlinarith [mul_lt_mul_of_pos_right hf h34]

lemma score_melisse_lt_baldrian : score profile3 melisse < score profile3 baldrian := by
  unfold score
  rw [teaDot_melisse, teaDot_baldrian, teaNormSq_melisse, teaNormSq_baldrian,
    profileNormSq_profile3, eps_eq]
  have h34 : (0:ℝ) < Real.sqrt 1.34 + 1 / 100000000 := by positivity
  rw [div_lt_div_iff₀ (by positivity) (by positivity)]
  have hf : (1.28:ℝ) * (Real.sqrt 1.805 + 1 / 100000000) <
      1.52 * (Real.sqrt 1.29 + 1 / 100000000) := by
    nlinarith [sqrt1805_lt, sqrt129_gt]
  nlinarith [mul_lt_mul_of_pos_right hf h34]

lemma score_ingwer_lt_melisse : score profile3 ingwer < score profile3 melisse := by
  unfold score
  rw [teaDot_ingwer, teaDot_melisse, teaNormSq_ingwer, teaNormSq_melisse,
    profileNormSq_profile3, eps_eq]
  have h34 : (0:ℝ) < Real.sqrt 1.34 + 1 / 100000000 := by positivity
  rw [div_lt_div_iff₀ (by positivity) (by positivity)]
  have hf : (0.89:ℝ) * (Real.sqrt 1.29 + 1 / 100000000) <
      1.28 * (Real.sqrt 1.59 + 1 / 100000000) := by
    nlinarith [sqrt129_lt, sqrt159_gt]
  nlinarith [mul_lt_mul_of_pos_right hf h34]

lemma score_ingwer_lt_baldrian : score profile3 ingwer < score profile3 baldrian :=
  lt_trans score_ingwer_lt_melisse score_melisse_lt_baldrian

lemma sortedDefault :
    sortedByScoreDesc profile3 DEFAULT_TEAS = [kamille, baldrian, melisse, ingwer] := by
  unfold sortedByScoreDesc DEFAULT_TEAS
  simp only [List.insertionSort, List.orderedInsert]
  rw [if_neg (not_le.mpr score_ingwer_lt_baldrian)]
  simp only [List.orderedInsert]
  rw [if_neg (not_le.mpr score_melisse_lt_baldrian),
    if_pos (le_of_lt score_ingwer_lt_melisse)]
  simp only [List.orderedInsert]
  rw [if_pos (le_of_lt score_baldrian_lt_kamille)]

/-- C3 (amended): against the four default teas, the matcher's ordering for
the profile (90, 40, 10, 60) is kamille, baldrian, melisse, ingwer — kamille
first (its axes are exactly the normalized profile), ingwer last; the top-3
returned are kamille, baldrian, melisse. -/
theorem c3_default_ranking :
    (sortedByScoreDesc profile3 DEFAULT_TEAS).map (fun t => t.slug) =
      ["kamille", "baldrian", "melisse", "ingwer"] ∧
    matchTeas profile3 DEFAULT_TEAS = ["kamille", "baldrian", "melisse"] := by
  constructor
  · rw [sortedDefault]
    rfl
  · unfold matchTeas
    rw [sortedDefault]
    rfl

/-- C3 (counterexample): baldrian is not ranked first — the head of the
matcher's ordering is kamille. -/
theorem c3_counterexample :
    (sortedByScoreDesc profile3 DEFAULT_TEAS).head? = some kamille ∧
    (sortedByScoreDesc profile3 DEFAULT_TEAS).head? ≠ some baldrian := by
  rw [sortedDefault]
  refine ⟨rfl, ?_⟩
  intro h
  have : kamille = baldrian := by simpa using h
  have := congrArg Tea.slug this
  simp [kamille, baldrian] at this

/-- C4: for every profile and catalog, the matcher returns `min 3 n` slugs
(`n` the catalog size) — never more than 3, never more than the catalog has —
and every returned slug belongs to a tea of the catalog. -/
theorem c4_matchTeas_bounds (p : EmotionalProfile) (teas : List Tea) :
    (matchTeas p teas).length = min 3 teas.length ∧
    ∀ sl ∈ matchTeas p teas, ∃ t ∈ teas, t.slug = sl := by
  constructor
  · simp [matchTeas, sortedByScoreDesc]
  · intro sl hsl
    unfold matchTeas at hsl
    obtain ⟨t, ht, rfl⟩ := List.mem_map.mp hsl
    refine ⟨t, ?_, rfl⟩
    have ht2 : t ∈ sortedByScoreDesc p teas := List.mem_of_mem_take ht
    exact (List.perm_insertionSort _ teas).mem_iff.mp ht2

/-- C4 (witness): the one-tea catalog yields exactly one slug, and it belongs
to the catalog. -/
theorem c4_witness :
    matchTeas profile3 [kamille] = ["kamille"] ∧
    "kamille" ∈ matchTeas profile3 [kamille] ∧
    (∃ t ∈ [kamille], t.slug = "kamille") := by
  have h1 : matchTeas profile3 [kamille] = ["kamille"] := rfl
  have hm : "kamille" ∈ matchTeas profile3 [kamille] := by rw [h1]; simp
  exact ⟨h1, hm, (c4_matchTeas_bounds profile3 [kamille]).2 "kamille" hm⟩

lemma scoreFilter_cons_pos (p : EmotionalProfile) (c : ℝ) (b : Tea) (l : List Tea)
    (h : score p b = c) : scoreFilter p c (b :: l) = b :: scoreFilter p c l := by
  simp [scoreFilter, List.filter_cons, decide_eq_true_eq, h]

lemma scoreFilter_cons_neg (p : EmotionalProfile) (c : ℝ) (b : Tea) (l : List Tea)
    (h : score p b ≠ c) : scoreFilter p c (b :: l) = scoreFilter p c l := by
  simp [scoreFilter, List.filter_cons, decide_eq_true_eq, h]

open Classical in
lemma scoreFilter_orderedInsert (p : EmotionalProfile) (c : ℝ) (x : Tea) :
    ∀ l : List Tea,
      scoreFilter p c (l.orderedInsert (fun a b => score p b ≤ score p a) x) =
        if score p x = c then x :: scoreFilter p c l else scoreFilter p c l := by
  intro l
  induction l with
  | nil =>
    rw [List.orderedInsert_nil]
    by_cases h : score p x = c
    · rw [if_pos h, scoreFilter_cons_pos _ _ _ _ h]
    · rw [if_neg h, scoreFilter_cons_neg _ _ _ _ h]
  | cons b t ih =>
    by_cases hr : score p b ≤ score p x
    · rw [List.orderedInsert_of_le _ t hr]
      by_cases h : score p x = c
      · rw [if_pos h, scoreFilter_cons_pos _ _ _ _ h]
      · rw [if_neg h, scoreFilter_cons_neg _ _ _ _ h]
    · have hor : (b :: t).orderedInsert (fun a b => score p b ≤ score p a) x
          = b :: t.orderedInsert (fun a b => score p b ≤ score p a) x := by
        simp only [List.orderedInsert]
        rw [if_neg hr]
      rw [hor]
      have hxb : score p x < score p b := not_le.mp hr
      by_cases hb : score p b = c
      · rw [scoreFilter_cons_pos _ _ _ _ hb, ih]
        by_cases h : score p x = c
        · exfalso
          rw [h, hb] at hxb
          exact lt_irrefl c hxb
        · rw [if_neg h, if_neg h, scoreFilter_cons_pos _ _ _ _ hb]
      · rw [scoreFilter_cons_neg _ _ _ _ hb, ih]
        by_cases h : score p x = c
        · rw [if_pos h, if_pos h, scoreFilter_cons_neg _ _ _ _ hb]
        · rw [if_neg h, if_neg h, scoreFilter_cons_neg _ _ _ _ hb]

lemma scoreFilter_insertionSort (p : EmotionalProfile) (c : ℝ) :
    ∀ l : List Tea, scoreFilter p c (sortedByScoreDesc p l) = scoreFilter p c l
  | [] => rfl
  | x :: xs => by
    have hrec : sortedByScoreDesc p (x :: xs)
        = (sortedByScoreDesc p xs).orderedInsert (fun a b => score p b ≤ score p a) x := rfl
    rw [hrec, scoreFilter_orderedInsert]
    by_cases h : score p x = c
    · rw [if_pos h, scoreFilter_insertionSort p c xs, scoreFilter_cons_pos _ _ _ _ h]
    · rw [if_neg h, scoreFilter_insertionSort p c xs, scoreFilter_cons_neg _ _ _ _ h]

/-- C5: the matcher's ordering is descending in the similarity score, the
returned list is its top-3 slug projection, and the sort is stable: within
every class of equal-score teas, the ordering keeps the catalog order. -/
theorem c5_sort_descending_stable (p : EmotionalProfile) (teas : List Tea) :
    List.Sorted (fun a b => score p b ≤ score p a) (sortedByScoreDesc p teas) ∧
    matchTeas p teas = ((sortedByScoreDesc p teas).take 3).map (fun t => t.slug) ∧
    ∀ c : ℝ, scoreFilter p c (sortedByScoreDesc p teas) = scoreFilter p c teas := by
  refine ⟨?_, rfl, fun c => scoreFilter_insertionSort p c teas⟩
  haveI h1 : IsTotal Tea (fun a b => score p b ≤ score p a) := ⟨fun _ _ => le_total _ _⟩
  haveI h2 : IsTrans Tea (fun a b => score p b ≤ score p a) :=
    ⟨fun _ _ _ hab hbc => le_trans hbc hab⟩
  exact List.sorted_insertionSort _ teas

/-- C6 (amended): a tea whose axes dict coincides with the normalized profile
vector scores strictly below `1` but at least `1 - 3ε/‖target‖`, provided the
normalized profile vector is nonzero (norm at least `ε = 1e-8`); so the score
is `1` up to the epsilon offsets on the two norms. -/
theorem c6_identical_axes_score (p : EmotionalProfile) (t : Tea)
    (hax : (axesGet t.axes "calmness" : ℝ) = (p.calmness : ℝ) / 100 ∧
           (axesGet t.axes "clarity" : ℝ) = (p.clarity : ℝ) / 100 ∧
           (axesGet t.axes "energy" : ℝ) = (p.energy : ℝ) / 100 ∧
           (axesGet t.axes "grounding" : ℝ) = (p.grounding : ℝ) / 100)
    (hpos : epsilon ^ 2 ≤ profileNormSq p) :
    1 - 3 * epsilon / Real.sqrt (profileNormSq p) ≤ score p t ∧ score p t < 1 := by
  obtain ⟨h1, h2, h3, h4⟩ := hax
  have hdot : teaDot p t = profileNormSq p := by
    unfold teaDot profileNormSq
    rw [h1, h2, h3, h4]
    ring
  have hnsq : teaNormSq t = profileNormSq p := by
    unfold teaNormSq profileNormSq
    rw [h1, h2, h3, h4]
  have hs0 : 0 ≤ profileNormSq p := by unfold profileNormSq; positivity
  have hε : (0:ℝ) < epsilon := by norm_num [epsilon]
  have hεu : epsilon ≤ Real.sqrt (profileNormSq p) := Real.le_sqrt_of_sq_le hpos
  have hu2 : Real.sqrt (profileNormSq p) ^ 2 = profileNormSq p := Real.sq_sqrt hs0
  have hu0 : 0 ≤ Real.sqrt (profileNormSq p) := Real.sqrt_nonneg _
  have hu_pos : 0 < Real.sqrt (profileNormSq p) := lt_of_lt_of_le hε hεu
  unfold score
  rw [hdot, hnsq]
  constructor
  · have hL : 1 - 3 * epsilon / Real.sqrt (profileNormSq p) =
        (Real.sqrt (profileNormSq p) - 3 * epsilon) / Real.sqrt (profileNormSq p) := by
      field_simp
    rw [hL, div_le_div_iff₀ hu_pos (by positivity)]
    nlinarith [hu2, mul_nonneg hε.le (sq_nonneg (Real.sqrt (profileNormSq p))),
      mul_nonneg (mul_nonneg hε.le hε.le) hu0, mul_nonneg hε.le hu0,
      mul_nonneg (mul_nonneg hε.le hε.le) hε.le]
  · rw [div_lt_one (by positivity)]
    nlinarith [hu2, mul_nonneg hε.le hu0]

/-- C6 (witness): `kamille`'s axes are exactly the normalized scenario-3
profile, and its score is below `1` by at most `3ε/‖target‖`. -/
theorem c6_witness :
    ((axesGet kamille.axes "calmness" : ℝ) = (profile3.calmness : ℝ) / 100 ∧
     (axesGet kamille.axes "clarity" : ℝ) = (profile3.clarity : ℝ) / 100 ∧
     (axesGet kamille.axes "energy" : ℝ) = (profile3.energy : ℝ) / 100 ∧
     (axesGet kamille.axes "grounding" : ℝ) = (profile3.grounding : ℝ) / 100) ∧
    epsilon ^ 2 ≤ profileNormSq profile3 ∧
    (1 - 3 * epsilon / Real.sqrt (profileNormSq profile3) ≤ score profile3 kamille ∧
      score profile3 kamille < 1) := by
  have hax : (axesGet kamille.axes "calmness" : ℝ) = (profile3.calmness : ℝ) / 100 ∧
      (axesGet kamille.axes "clarity" : ℝ) = (profile3.clarity : ℝ) / 100 ∧
      (axesGet kamille.axes "energy" : ℝ) = (profile3.energy : ℝ) / 100 ∧
      (axesGet kamille.axes "grounding" : ℝ) = (profile3.grounding : ℝ) / 100 := by
    refine ⟨?_, ?_, ?_, ?_⟩ <;>
      norm_num [axesGet_k_ca, axesGet_k_cl, axesGet_k_en, axesGet_k_gr, profile3]
  have hpos : epsilon ^ 2 ≤ profileNormSq profile3 := by
    rw [profileNormSq_profile3]
    norm_num [epsilon]
  exact ⟨hax, hpos, c6_identical_axes_score profile3 kamille hax hpos⟩

/-- C6 (counterexample): the all-zero profile is a legal profile whose
normalized vector coincides with the empty axes dict of `zeroTea`, yet the
similarity score is `0`, not `1` up to epsilon. -/
theorem c6_counterexample :
    ((axesGet zeroTea.axes "calmness" : ℝ) = (zeroProfile.calmness : ℝ) / 100 ∧
     (axesGet zeroTea.axes "clarity" : ℝ) = (zeroProfile.clarity : ℝ) / 100 ∧
     (axesGet zeroTea.axes "energy" : ℝ) = (zeroProfile.energy : ℝ) / 100 ∧
     (axesGet zeroTea.axes "grounding" : ℝ) = (zeroProfile.grounding : ℝ) / 100) ∧
    ProfileInRange zeroProfile ∧
    score zeroProfile zeroTea = 0 ∧
    |score zeroProfile zeroTea - 1| > 1 / 2 := by
  have hz : score zeroProfile zeroTea = 0 := by
    unfold score teaDot
    norm_num [axesGet, zeroTea, zeroProfile]
  refine ⟨⟨?_, ?_, ?_, ?_⟩, ?_, hz, ?_⟩
  · norm_num [axesGet, zeroTea, zeroProfile]
  · norm_num [axesGet, zeroTea, zeroProfile]
  · norm_num [axesGet, zeroTea, zeroProfile]
  · norm_num [axesGet, zeroTea, zeroProfile]
  · norm_num [ProfileInRange, zeroProfile]
  · rw [hz]
    norm_num

end TeeSeele
